import Mathlib

/-!
Verification of the batchflow Dataset core (src/batchflow/dataset.py).

The development shallowly embeds the Dataset class and the collaborators it
uses. Python objects are modelled as records carrying an explicit identity
token (the field named ref, standing for the CPython object id), so object
identity and the identity-sharing optimization of from_dataset can be stated.
Collaborators whose code is not among the sources (DatasetIndex from
dsindex.py, Baseset from base.py, Pipeline from pipeline.py) are modelled
from the spec, as marked on each definition.
-/

/-- An item identifier held by an index (numpy entries modelled as naturals). -/
abbrev ItemId := Nat

/-- Opaque keyword-argument payload forwarded to collaborators. -/
abbrev Kwargs := List (String × Nat)

/-- Modelled from the spec: the concrete Python classes a DatasetIndex object
can have. dsindex.py is not among the sources; the repository ships
DatasetIndex and its subclass FilesIndex, and the framework supports
user-defined subclasses, modelled here by two unrelated direct subclasses
customA and customB of DatasetIndex. -/
inductive IndexClass where
  | datasetIndex
  | filesIndex
  | customA
  | customB
deriving DecidableEq

/-- Python isinstance over the modelled hierarchy: every class is a subclass
of itself, and every class is a (direct or improper) subclass of the root
DatasetIndex; filesIndex, customA and customB are pairwise unrelated. -/
def IndexClass.isSubclassOf (c d : IndexClass) : Bool :=
  decide (c = d) || decide (d = IndexClass.datasetIndex)

/-- Modelled from the spec: a DatasetIndex value (dsindex.py is not among the
sources): its concrete Python class, its ordered identifiers, and its object
identity token. -/
structure DatasetIndex where
  cls : IndexClass
  indices : List ItemId
  ref : Nat
deriving DecidableEq

/-- Raw material a DatasetIndex can be built from: a collection of
identifiers, or an integer count meaning the range 0..n-1. -/
inductive RawData where
  | coll (l : List ItemId)
  | count (n : Nat)
deriving DecidableEq

/-- Modelled from the spec: the DatasetIndex constructor (dsindex.py is not
among the sources): a collection gives its elements deduplicated, an integer
count n synthesizes identifiers 0..n-1; the result is a freshly allocated
object with identity token fresh. -/
def DatasetIndex.ofRaw (r : RawData) (fresh : Nat) : DatasetIndex :=
  match r with
  | RawData.coll l => ⟨IndexClass.datasetIndex, l.dedup, fresh⟩
  | RawData.count n => ⟨IndexClass.datasetIndex, List.range n, fresh⟩

/-- An argument that is either already a DatasetIndex object or raw input. -/
inductive RawIndex where
  | idx (i : DatasetIndex)
  | raw (r : RawData)
deriving DecidableEq

/-- Modelled from the spec: DatasetIndex.create_batch (dsindex.py is not among
the sources): with pos set, the input entries are positional offsets into the
ordered identifiers; otherwise they are identifiers taken as given, order
preserved. Extra keyword arguments are accepted and ignored; the result is a
new DatasetIndex with identity token fresh. -/
def DatasetIndex.create_batch (I : DatasetIndex) (input : List ItemId) (pos : Bool)
    (kwargs : Kwargs) (fresh : Nat) : DatasetIndex :=
  match kwargs with
  | _ =>
    if pos then ⟨IndexClass.datasetIndex, input.filterMap (fun p => I.indices.get? p), fresh⟩
    else ⟨IndexClass.datasetIndex, input, fresh⟩

/-- Batch classes available to a Dataset: the base Batch and a distinct
subclass; Python compares classes by identity, modelled as tag equality. -/
inductive BatchClass where
  | batch
  | imageBatch
deriving DecidableEq

/-- Concrete Python classes a Dataset object can have (the framework supports
subclassing; create_subset dispatches on the runtime class of self). -/
inductive DsClass where
  | dataset
  | customDataset
deriving DecidableEq

/-- A Batch as produced by the batch-class capability (external collaborator,
contract only): the constructing class, the index slice, the shared preloaded
payload reference, and the forwarded keyword arguments. -/
structure Batch where
  bcls : BatchClass
  index : DatasetIndex
  preloaded : Option Nat
  kwargs : Kwargs
deriving DecidableEq

/-- Calling the batch-class capability, as in
batch_class(index, preloaded=self.preloaded, **kwargs). -/
def BatchClass.call (b : BatchClass) (index : DatasetIndex) (preloaded : Option Nat)
    (kwargs : Kwargs) : Batch :=
  ⟨b, index, preloaded, kwargs⟩

/-- A Dataset object: its runtime class, the owned index, the batch-class
capability, the shared preloaded payload reference (if any), and its object
identity token. -/
structure Dataset where
  cls : DsClass
  index : DatasetIndex
  batch_class : BatchClass
  preloaded : Option Nat
  ref : Nat
deriving DecidableEq

/-- Errors raised by the Dataset core: the builtin IndexError raised by
create_subset (the IndexOutOfRangeError of the error taxonomy) and the
builtin TypeError raised by the binding operator (the ArgumentTypeError of
the taxonomy), carrying its message. -/
inductive Err where
  | indexError
  | typeError (msg : String)
deriving DecidableEq

/-- Dataset.build_index: return the argument unchanged when it is already a
DatasetIndex, otherwise construct a DatasetIndex from it (the constructed
index gets the fresh identity token). -/
def Dataset.build_index (index : RawIndex) (fresh : Nat) : DatasetIndex :=
  match index with
  | RawIndex.idx i => i
  | RawIndex.raw r => DatasetIndex.ofRaw r fresh

/-- The Dataset constructor. Baseset.__init__ (base.py is not among the
sources; modelled from the spec) stores the index auto-wrapped through
build_index; then batch_class and preloaded are stored. freshIdx is the
identity token for a newly built index, ref the identity token of the new
Dataset object itself. -/
def Dataset.init (cls : DsClass) (index : RawIndex) (batch_class : BatchClass)
    (preloaded : Option Nat) (freshIdx : Nat) (ref : Nat) : Dataset :=
  ⟨cls, Dataset.build_index index freshIdx, batch_class, preloaded, ref⟩

/-- Dataset._is_same_index: one operand is an instance of the type of the
other, the shapes of the identifier arrays agree, and the identifiers agree
elementwise. -/
def Dataset._is_same_index (index1 index2 : DatasetIndex) : Bool :=
  (IndexClass.isSubclassOf index1.cls index2.cls ||
    IndexClass.isSubclassOf index2.cls index1.cls)
  && decide (index1.indices.length = index2.indices.length)
  && decide (index1.indices = index2.indices)

/-- Dataset.from_dataset: when batch_class is unspecified or equals the
source's and the new index is the same index as the source's, return the
source dataset object itself; otherwise build a new Dataset of class cls with
the resolved batch class, the new index and the shared preloaded payload. -/
def Dataset.from_dataset (cls : DsClass) (dataset : Dataset) (index : DatasetIndex)
    (batch_class : Option BatchClass) (fresh : Nat) : Dataset :=
  if (match batch_class with
      | none => true
      | some b => decide (b = dataset.batch_class))
     && Dataset._is_same_index index dataset.index then
    dataset
  else
    Dataset.init cls (RawIndex.idx index)
      (match batch_class with
       | none => dataset.batch_class
       | some b => b)
      dataset.preloaded fresh fresh

/-- Baseset.indices (base.py is not among the sources; modelled from the
spec): the identifiers of the owned index. -/
def Dataset.indices (D : Dataset) : List ItemId :=
  D.index.indices

/-- Dataset.create_subset: raise IndexError unless every identifier of the
argument is contained in the receiver's own identifiers, then delegate to
from_dataset on the runtime class of the receiver. -/
def Dataset.create_subset (D : Dataset) (index : DatasetIndex) (fresh : Nat) :
    Except Err Dataset :=
  if !(index.indices.all (fun i => decide (i ∈ D.indices))) then
    Except.error Err.indexError
  else
    Except.ok (Dataset.from_dataset D.cls D index none fresh)

/-- Input to Dataset.create_batch: either already a DatasetIndex object, or a
raw list of identifiers or positions. -/
inductive BatchInput where
  | idx (i : DatasetIndex)
  | raw (l : List ItemId)
deriving DecidableEq

/-- Dataset.create_batch: when the input is not already a DatasetIndex,
convert it through the owned index's create_batch with the pos flag; then
call the batch-class capability with the resolved index, the preloaded
payload and the keyword arguments. -/
def Dataset.create_batch (D : Dataset) (input : BatchInput) (pos : Bool)
    (kwargs : Kwargs) (fresh : Nat) : Batch :=
  BatchClass.call D.batch_class
    (match input with
     | BatchInput.idx i => i
     | BatchInput.raw l => DatasetIndex.create_batch D.index l pos kwargs fresh)
    D.preloaded kwargs

/-- Modelled from the spec: a Pipeline (pipeline.py is not among the sources):
the dataset it is bound to, if any, its configuration mapping and its ordered
chain of action names. -/
structure Pipeline where
  dataset : Option Dataset
  config : Kwargs
  actions : List String
deriving DecidableEq

/-- Modelled from the spec: Pipeline.__lshift__ (pipeline.py is not among the
sources): binding re-binds the pipeline to the given dataset; the action
chain and the configuration are unchanged. -/
def Pipeline.lshift (p : Pipeline) (d : Dataset) : Pipeline :=
  { p with dataset := some d }

/-- The right operand of the binding operator: a Pipeline, or any non-Pipeline
value represented by the name of its Python type (which the error message
reports). -/
inductive RShiftArg where
  | pipe (p : Pipeline)
  | nonPipeline (tyName : String)
deriving DecidableEq

/-- Dataset.__rshift__: raise TypeError naming the received type unless the
operand is a Pipeline; otherwise delegate the binding to the pipeline. -/
def Dataset.rshift (D : Dataset) (other : RShiftArg) : Except Err Pipeline :=
  match other with
  | RShiftArg.pipe p => Except.ok (Pipeline.lshift p D)
  | RShiftArg.nonPipeline t =>
      Except.error (Err.typeError ("Pipeline is expected, but got " ++ t ++
        ". Use as dataset >> pipeline"))

/-- Stateful embedding of create_subset: the second component is the state of
the receiver after the call. The source method assigns nothing to self, so
the receiver is returned exactly as it was. -/
def Dataset.create_subset_st (D : Dataset) (index : DatasetIndex) (fresh : Nat) :
    Except Err Dataset × Dataset :=
  (Dataset.create_subset D index fresh, D)

/-- Stateful embedding of create_batch: the second component is the state of
the receiver after the call. The source method assigns nothing to self, so
the receiver is returned exactly as it was. -/
def Dataset.create_batch_st (D : Dataset) (input : BatchInput) (pos : Bool)
    (kwargs : Kwargs) (fresh : Nat) : Batch × Dataset :=
  (Dataset.create_batch D input pos kwargs fresh, D)

/-- Stateful embedding of the binding operator: the second component is the
state of the receiver after the call; the source assigns nothing to self. -/
def Dataset.rshift_st (D : Dataset) (other : RShiftArg) :
    Except Err Pipeline × Dataset :=
  (Dataset.rshift D other, D)

/-! ## Helper lemmas -/

/-- Unfolding of the index equality test into a proposition. -/
lemma isSameIndex_eq_true_iff (i1 i2 : DatasetIndex) :
    Dataset._is_same_index i1 i2 = true ↔
      ((IndexClass.isSubclassOf i1.cls i2.cls = true ∨
          IndexClass.isSubclassOf i2.cls i1.cls = true) ∧
        i1.indices.length = i2.indices.length ∧ i1.indices = i2.indices) := by
  simp [Dataset._is_same_index, Bool.and_eq_true, Bool.or_eq_true, and_assoc]

/-- Equal indices have elementwise-equal identifier lists. -/
lemma indices_eq_of_same {i1 i2 : DatasetIndex}
    (h : Dataset._is_same_index i1 i2 = true) : i1.indices = i2.indices :=
  ((isSameIndex_eq_true_iff i1 i2).1 h).2.2

/-! ## Claim theorems -/

/-- C3 (counterexample): two DatasetIndex values of unrelated concrete
subtypes with the same shape and elementwise-equal identifiers are not equal
under the equality test that the identity-sharing optimization uses, so
equality does not hold regardless of the concrete subtype of each side. -/
theorem spec_C3_counterexample :
    (DatasetIndex.mk IndexClass.customA [0, 1] 0).indices.length =
      (DatasetIndex.mk IndexClass.customB [0, 1] 1).indices.length ∧
    (DatasetIndex.mk IndexClass.customA [0, 1] 0).indices =
      (DatasetIndex.mk IndexClass.customB [0, 1] 1).indices ∧
    Dataset._is_same_index (DatasetIndex.mk IndexClass.customA [0, 1] 0)
      (DatasetIndex.mk IndexClass.customB [0, 1] 1) = false := by
  decide

/-- C3 (amended): the index equality used by the identity-sharing optimization
holds if and only if one side's concrete type is a subtype of the other's (in
at least one direction) and the two sides have the same shape (element count)
and elementwise-equal identifiers. -/
theorem spec_C3 (i1 i2 : DatasetIndex) :
    Dataset._is_same_index i1 i2 = true ↔
      ((IndexClass.isSubclassOf i1.cls i2.cls = true ∨
          IndexClass.isSubclassOf i2.cls i1.cls = true) ∧
        i1.indices.length = i2.indices.length ∧ i1.indices = i2.indices) :=
  isSameIndex_eq_true_iff i1 i2

/-- C3 (witness): the amended equality, applied to a FilesIndex and a plain
DatasetIndex carrying the same identifiers. -/
theorem spec_C3_witness :
    Dataset._is_same_index (DatasetIndex.mk IndexClass.filesIndex [5] 2)
      (DatasetIndex.mk IndexClass.datasetIndex [5] 3) = true :=
  (spec_C3 (DatasetIndex.mk IndexClass.filesIndex [5] 2)
    (DatasetIndex.mk IndexClass.datasetIndex [5] 3)).mpr
    ⟨Or.inl (by decide), by decide, by decide⟩

/-- C1: with batch_class omitted or equal to the source's, from_dataset
returns the identical Dataset object when the new index is index-equal (in
the sense of the code's own _is_same_index test) to the source's index, and
otherwise returns a new Dataset built from the new index, sharing the
source's batch class and preloaded payload. -/
theorem spec_C1 (cls : DsClass) (D : Dataset) (I : DatasetIndex)
    (bc : Option BatchClass) (fresh : Nat)
    (hb : bc = none ∨ bc = some D.batch_class) :
    (Dataset._is_same_index I D.index = true →
      Dataset.from_dataset cls D I bc fresh = D) ∧
    (Dataset._is_same_index I D.index = false →
      (Dataset.from_dataset cls D I bc fresh).ref = fresh ∧
      (Dataset.from_dataset cls D I bc fresh).index = I ∧
      (Dataset.from_dataset cls D I bc fresh).batch_class = D.batch_class ∧
      (Dataset.from_dataset cls D I bc fresh).preloaded = D.preloaded ∧
      (fresh ≠ D.ref → Dataset.from_dataset cls D I bc fresh ≠ D)) := by
  have hres : Dataset._is_same_index I D.index = false →
      Dataset.from_dataset cls D I bc fresh =
        Dataset.init cls (RawIndex.idx I) D.batch_class D.preloaded fresh fresh := by
    intro hsf
    rcases hb with h | h <;> subst h <;> simp [Dataset.from_dataset, hsf]
  constructor
  · intro hs
    rcases hb with h | h <;> subst h <;> simp [Dataset.from_dataset, hs]
  · intro hs
    rw [hres hs]
    exact ⟨rfl, rfl, rfl, rfl, fun hne hEq => hne (congrArg Dataset.ref hEq)⟩

/-- C1 (witness): an index with the same identifiers but a different object
identity than the source's index triggers the identity-sharing branch. -/
theorem spec_C1_witness :
    Dataset.from_dataset DsClass.dataset
      (Dataset.mk DsClass.dataset (DatasetIndex.mk IndexClass.datasetIndex [0, 1] 0)
        BatchClass.batch none 1)
      (DatasetIndex.mk IndexClass.datasetIndex [0, 1] 5) none 99 =
    Dataset.mk DsClass.dataset (DatasetIndex.mk IndexClass.datasetIndex [0, 1] 0)
      BatchClass.batch none 1 :=
  (spec_C1 DsClass.dataset
    (Dataset.mk DsClass.dataset (DatasetIndex.mk IndexClass.datasetIndex [0, 1] 0)
      BatchClass.batch none 1)
    (DatasetIndex.mk IndexClass.datasetIndex [0, 1] 5) none 99
    (Or.inl rfl)).1 (by decide)

/-- C4: from_dataset with an explicit batch class different from the source's
returns a new Dataset (not the source object) whose index is the given index,
whose batch class is the given one, and whose preloaded payload is the same
reference as the source's. -/
theorem spec_C4 (cls : DsClass) (D : Dataset) (I : DatasetIndex)
    (C : BatchClass) (fresh : Nat) (hb : C ≠ D.batch_class) (hf : fresh ≠ D.ref) :
    Dataset.from_dataset cls D I (some C) fresh ≠ D ∧
    (Dataset.from_dataset cls D I (some C) fresh).index = I ∧
    (Dataset.from_dataset cls D I (some C) fresh).batch_class = C ∧
    (Dataset.from_dataset cls D I (some C) fresh).preloaded = D.preloaded ∧
    (Dataset.from_dataset cls D I (some C) fresh).ref = fresh := by
  have hres : Dataset.from_dataset cls D I (some C) fresh =
      Dataset.init cls (RawIndex.idx I) C D.preloaded fresh fresh := by
    simp [Dataset.from_dataset, hb]
  rw [hres]
  exact ⟨fun hEq => hf (congrArg Dataset.ref hEq), rfl, rfl, rfl, rfl⟩

/-- C4 (witness): requesting a different batch class on the very same index
still produces a fresh Dataset object. -/
theorem spec_C4_witness :
    Dataset.from_dataset DsClass.dataset
      (Dataset.mk DsClass.dataset (DatasetIndex.mk IndexClass.datasetIndex [0] 0)
        BatchClass.batch none 1)
      (DatasetIndex.mk IndexClass.datasetIndex [0] 0) (some BatchClass.imageBatch) 7 ≠
    Dataset.mk DsClass.dataset (DatasetIndex.mk IndexClass.datasetIndex [0] 0)
      BatchClass.batch none 1 :=
  (spec_C4 DsClass.dataset
    (Dataset.mk DsClass.dataset (DatasetIndex.mk IndexClass.datasetIndex [0] 0)
      BatchClass.batch none 1)
    (DatasetIndex.mk IndexClass.datasetIndex [0] 0) BatchClass.imageBatch 7
    (by decide) (by decide)).1

/-- C2: create_subset fails with the index error exactly when the argument
holds an identifier absent from the receiver's own index; otherwise it
succeeds, delegating to from_dataset on the runtime class of the receiver,
and the resulting Dataset's index identifiers equal the argument's exactly
and in order. -/
theorem spec_C2 (D : Dataset) (index : DatasetIndex) (fresh : Nat) :
    (Dataset.create_subset D index fresh = Except.error Err.indexError ↔
      ∃ i, i ∈ index.indices ∧ i ∉ D.indices) ∧
    ((∀ i ∈ index.indices, i ∈ D.indices) →
      Dataset.create_subset D index fresh =
        Except.ok (Dataset.from_dataset D.cls D index none fresh) ∧
      ∀ R, Dataset.create_subset D index fresh = Except.ok R →
        R.index.indices = index.indices) := by
  by_cases hc : ∀ i ∈ index.indices, i ∈ D.indices
  · have hcond : (index.indices.all (fun i => decide (i ∈ D.indices))) = true := by
      simp only [List.all_eq_true, decide_eq_true_eq]
      exact hc
    have hok : Dataset.create_subset D index fresh =
        Except.ok (Dataset.from_dataset D.cls D index none fresh) := by
      simp [Dataset.create_subset, hcond]
    refine ⟨?_, fun _ => ⟨hok, fun R hR => ?_⟩⟩
    · rw [hok]
      constructor
      · intro h
        exact absurd h (by simp)
      · rintro ⟨i, hi, hni⟩
        exact absurd (hc i hi) hni
    · rw [hok] at hR
      have hR2 : R = Dataset.from_dataset D.cls D index none fresh :=
        (Except.ok.injEq _ _).mp hR.symm
      subst hR2
      cases hsame : Dataset._is_same_index index D.index with
      | true =>
        have hD : Dataset.from_dataset D.cls D index none fresh = D := by
          simp [Dataset.from_dataset, hsame]
        rw [hD]
        exact (indices_eq_of_same hsame).symm
      | false =>
        have hN : Dataset.from_dataset D.cls D index none fresh =
            Dataset.init D.cls (RawIndex.idx index) D.batch_class D.preloaded fresh fresh := by
          simp [Dataset.from_dataset, hsame]
        rw [hN]
        rfl
  · have hcond : (index.indices.all (fun i => decide (i ∈ D.indices))) = false := by
      rw [Bool.eq_false_iff]
      intro h
      refine hc ?_
      simpa only [List.all_eq_true, decide_eq_true_eq] using h
    have herr : Dataset.create_subset D index fresh = Except.error Err.indexError := by
      simp [Dataset.create_subset, hcond]
    refine ⟨?_, fun hall => absurd hall hc⟩
    rw [herr]
    constructor
    · intro _
      push_neg at hc
      exact hc
    · intro _
      rfl

/-- C2 (witness): a contained sub-index succeeds through from_dataset, and an
index holding the foreign identifier 5 is rejected. -/
theorem spec_C2_witness :
    Dataset.create_subset
      (Dataset.mk DsClass.dataset (DatasetIndex.mk IndexClass.datasetIndex [0, 1, 2] 0)
        BatchClass.batch none 1)
      (DatasetIndex.mk IndexClass.datasetIndex [2, 0] 2) 9 =
      Except.ok (Dataset.from_dataset DsClass.dataset
        (Dataset.mk DsClass.dataset (DatasetIndex.mk IndexClass.datasetIndex [0, 1, 2] 0)
          BatchClass.batch none 1)
        (DatasetIndex.mk IndexClass.datasetIndex [2, 0] 2) none 9) ∧
    Dataset.create_subset
      (Dataset.mk DsClass.dataset (DatasetIndex.mk IndexClass.datasetIndex [0, 1, 2] 0)
        BatchClass.batch none 1)
      (DatasetIndex.mk IndexClass.datasetIndex [5] 2) 9 = Except.error Err.indexError :=
  ⟨((spec_C2 (Dataset.mk DsClass.dataset (DatasetIndex.mk IndexClass.datasetIndex [0, 1, 2] 0)
        BatchClass.batch none 1)
      (DatasetIndex.mk IndexClass.datasetIndex [2, 0] 2) 9).2 (by decide)).1,
   ((spec_C2 (Dataset.mk DsClass.dataset (DatasetIndex.mk IndexClass.datasetIndex [0, 1, 2] 0)
        BatchClass.batch none 1)
      (DatasetIndex.mk IndexClass.datasetIndex [5] 2) 9).1).mpr ⟨5, by decide, by decide⟩⟩

/-- C10: when the argument is index-equal (by the code's _is_same_index test)
to the receiver's own index, create_subset returns the identical Dataset
object, since the containment check passes and from_dataset, called with no
batch class, takes its identity-sharing branch. -/
theorem spec_C10 (D : Dataset) (I : DatasetIndex) (fresh : Nat)
    (h : Dataset._is_same_index I D.index = true) :
    Dataset.create_subset D I fresh = Except.ok D := by
  have hEq : I.indices = D.index.indices := indices_eq_of_same h
  have hcond : (I.indices.all (fun i => decide (i ∈ D.indices))) = true := by
    simp only [List.all_eq_true, decide_eq_true_eq, Dataset.indices, hEq]
    exact fun i hi => hi
  simp [Dataset.create_subset, hcond, Dataset.from_dataset, h]

/-- C10 (witness): passing the Dataset's very own index object back to
create_subset yields the Dataset itself. -/
theorem spec_C10_witness :
    Dataset.create_subset
      (Dataset.mk DsClass.dataset (DatasetIndex.mk IndexClass.datasetIndex [3, 4] 0)
        BatchClass.batch none 1)
      (DatasetIndex.mk IndexClass.datasetIndex [3, 4] 0) 9 =
    Except.ok (Dataset.mk DsClass.dataset (DatasetIndex.mk IndexClass.datasetIndex [3, 4] 0)
      BatchClass.batch none 1) :=
  spec_C10 (Dataset.mk DsClass.dataset (DatasetIndex.mk IndexClass.datasetIndex [3, 4] 0)
      BatchClass.batch none 1)
    (DatasetIndex.mk IndexClass.datasetIndex [3, 4] 0) 9 (by decide)

/-- C7: build_index returns the argument itself (object identity) when it
already is a DatasetIndex, and otherwise returns a newly constructed
DatasetIndex wrapping the raw input: the result is exactly the constructor's
output, carries the fresh identity token, and is distinct from every existing
index object. -/
theorem spec_C7 :
    (∀ (i : DatasetIndex) (fresh : Nat),
      Dataset.build_index (RawIndex.idx i) fresh = i) ∧
    (∀ (r : RawData) (fresh : Nat),
      Dataset.build_index (RawIndex.raw r) fresh = DatasetIndex.ofRaw r fresh ∧
      (Dataset.build_index (RawIndex.raw r) fresh).ref = fresh ∧
      ∀ j : DatasetIndex, fresh ≠ j.ref →
        Dataset.build_index (RawIndex.raw r) fresh ≠ j) := by
  refine ⟨fun i fresh => rfl, fun r fresh => ⟨rfl, ?_, fun j hj hEq => hj ?_⟩⟩
  · cases r <;> rfl
  · have : (Dataset.build_index (RawIndex.raw r) fresh).ref = j.ref :=
      congrArg DatasetIndex.ref hEq
    rw [← this]
    cases r <;> rfl

/-- C7 (witness): identity reuse on an existing index, and freshness of a
wrapped raw collection. -/
theorem spec_C7_witness :
    Dataset.build_index (RawIndex.idx (DatasetIndex.mk IndexClass.datasetIndex [1, 2] 3)) 5 =
      DatasetIndex.mk IndexClass.datasetIndex [1, 2] 3 ∧
    Dataset.build_index (RawIndex.raw (RawData.coll [1, 2])) 7 ≠
      DatasetIndex.mk IndexClass.datasetIndex [1, 2] 3 :=
  ⟨spec_C7.1 (DatasetIndex.mk IndexClass.datasetIndex [1, 2] 3) 5,
   (spec_C7.2 (RawData.coll [1, 2]) 7).2.2 (DatasetIndex.mk IndexClass.datasetIndex [1, 2] 3)
     (by decide)⟩

/-- C5: on an input that is not already a DatasetIndex, create_batch first
resolves it through the owning index's create_batch with the pos flag and
then calls the configured batch-class capability with the resolved index, the
Dataset's preloaded payload and the extra keyword arguments. -/
theorem spec_C5 (D : Dataset) (l : List ItemId) (pos : Bool) (kwargs : Kwargs)
    (fresh : Nat) :
    Dataset.create_batch D (BatchInput.raw l) pos kwargs fresh =
      BatchClass.call D.batch_class
        (DatasetIndex.create_batch D.index l pos kwargs fresh) D.preloaded kwargs ∧
    (Dataset.create_batch D (BatchInput.raw l) pos kwargs fresh).index =
      DatasetIndex.create_batch D.index l pos kwargs fresh ∧
    (Dataset.create_batch D (BatchInput.raw l) pos kwargs fresh).bcls = D.batch_class ∧
    (Dataset.create_batch D (BatchInput.raw l) pos kwargs fresh).preloaded = D.preloaded ∧
    (Dataset.create_batch D (BatchInput.raw l) pos kwargs fresh).kwargs = kwargs :=
  ⟨rfl, rfl, rfl, rfl, rfl⟩

/-- C6: the binding operator rejects every non-Pipeline operand with a type
error whose message names the received type, accepts every Pipeline operand
by delegating the binding to the pipeline (which ends up bound to the
receiver), and never mutates the receiver. -/
theorem spec_C6 (D : Dataset) (other : RShiftArg) :
    (∀ t, other = RShiftArg.nonPipeline t →
      Dataset.rshift D other =
        Except.error (Err.typeError ("Pipeline is expected, but got " ++ t ++
          ". Use as dataset >> pipeline"))) ∧
    (∀ p, other = RShiftArg.pipe p →
      Dataset.rshift D other = Except.ok (Pipeline.lshift p D) ∧
      (Pipeline.lshift p D).dataset = some D ∧
      ∀ e, Dataset.rshift D other ≠ Except.error e) ∧
    (Dataset.rshift_st D other).2 = D := by
  refine ⟨?_, ?_, rfl⟩
  · rintro t rfl
    rfl
  · rintro p rfl
    exact ⟨rfl, rfl, fun e h => Except.noConfusion h⟩

/-- C6 (witness): an operand of Python type int is rejected with the message
naming int, and a Pipeline operand is accepted and re-bound. -/
theorem spec_C6_witness :
    Dataset.rshift
      (Dataset.mk DsClass.dataset (DatasetIndex.mk IndexClass.datasetIndex [0] 0)
        BatchClass.batch none 1)
      (RShiftArg.nonPipeline ("int")) =
      Except.error (Err.typeError ("Pipeline is expected, but got " ++ ("int") ++
        ". Use as dataset >> pipeline")) ∧
    Dataset.rshift
      (Dataset.mk DsClass.dataset (DatasetIndex.mk IndexClass.datasetIndex [0] 0)
        BatchClass.batch none 1)
      (RShiftArg.pipe (Pipeline.mk none [] [])) =
      Except.ok (Pipeline.lshift (Pipeline.mk none [] [])
        (Dataset.mk DsClass.dataset (DatasetIndex.mk IndexClass.datasetIndex [0] 0)
          BatchClass.batch none 1)) :=
  ⟨(spec_C6 (Dataset.mk DsClass.dataset (DatasetIndex.mk IndexClass.datasetIndex [0] 0)
      BatchClass.batch none 1)
      (RShiftArg.nonPipeline ("int"))).1 ("int") rfl,
   ((spec_C6 (Dataset.mk DsClass.dataset (DatasetIndex.mk IndexClass.datasetIndex [0] 0)
      BatchClass.batch none 1)
      (RShiftArg.pipe (Pipeline.mk none [] []))).2.1 (Pipeline.mk none [] []) rfl).1⟩

/-- C8: neither create_subset nor create_batch mutates the receiver: in the
stateful embedding the receiver's state after either call, whether the call
yields a value or an error, is exactly the state before it, field by field. -/
theorem spec_C8 (D : Dataset) (index : DatasetIndex) (input : BatchInput)
    (pos : Bool) (kwargs : Kwargs) (f1 f2 : Nat) :
    (Dataset.create_subset_st D index f1).2 = D ∧
    (Dataset.create_batch_st D input pos kwargs f2).2 = D ∧
    (Dataset.create_subset_st D index f1).2.index = D.index ∧
    (Dataset.create_subset_st D index f1).2.batch_class = D.batch_class ∧
    (Dataset.create_subset_st D index f1).2.preloaded = D.preloaded ∧
    (Dataset.create_batch_st D input pos kwargs f2).2.index = D.index ∧
    (Dataset.create_batch_st D input pos kwargs f2).2.batch_class = D.batch_class ∧
    (Dataset.create_batch_st D input pos kwargs f2).2.preloaded = D.preloaded :=
  ⟨rfl, rfl, rfl, rfl, rfl, rfl, rfl, rfl⟩

/-- C9: on an input that already is a DatasetIndex, create_batch performs no
containment check against the Dataset's own index and ignores the pos flag
and the freshness token entirely: the batch is built from the given index
as-is, whatever identifiers it holds. -/
theorem spec_C9 (D : Dataset) (i : DatasetIndex) (pos pos2 : Bool)
    (kwargs : Kwargs) (fresh fresh2 : Nat) :
    Dataset.create_batch D (BatchInput.idx i) pos kwargs fresh =
      BatchClass.call D.batch_class i D.preloaded kwargs ∧
    Dataset.create_batch D (BatchInput.idx i) pos kwargs fresh =
      Dataset.create_batch D (BatchInput.idx i) pos2 kwargs fresh2 ∧
    (Dataset.create_batch D (BatchInput.idx i) pos kwargs fresh).index = i :=
  ⟨rfl, rfl, rfl⟩
